import Mathlib

/-!
Shallow embedding of the LightTimer control core
(src/unnamed/part_000 and src/LightTimer.ino).

The embedding follows the source: pure helper functions become Lean
functions; the global mutable state (myTime, sunRSTime, overrideStateVal,
lightStateVal, the relay output pin, isSetup) becomes an explicit record
threaded through the state-transition functions checkSchedule and
overrideRelay.  The two remote HTTP services (timezonedb "dst" query and
sunrise-sunset query) and the ArduinoJson deserialization layer are
external collaborators of the core (the spec treats JSON wire-format
parsing as a capability the core calls); each query is modelled by its
observable outcome: either the connection failed, or it succeeded and each
field lookup on the deserialized document produced a string or null
(ArduinoJson yields null for an absent field or an unparseable document,
and the Arduino String constructor turns a null char pointer into "").
-/

namespace LightTimer

/-- Data model of `struct localTime` (part_000 lines 54-59). -/
structure localTime where
  printTime : String
  militaryHour : Int
  minute : Int
deriving DecidableEq

/-- The `static int sunRSTime[4]` array of checkSchedule, with the
`enum RSTime` indices RISE_HOUR, RISE_MIN, SET_HOUR, SET_MIN as fields. -/
structure SunRSTime where
  RISE_HOUR : Int
  RISE_MIN : Int
  SET_HOUR : Int
  SET_MIN : Int
deriving DecidableEq

/-- Observable outcome of one query to the timezonedb dst service:
either `dstClient.connect` failed, or it succeeded and `doc["dst"]`
as a char pointer was either a string or null (null when the body was
malformed, empty, or lacked the field). -/
inductive DstResponse where
  | connectFail : DstResponse
  | connected : Option String → DstResponse
deriving DecidableEq

/-- Observable outcome of one query to the sunrise-sunset service:
either `sunRSClient.connect` failed, or it succeeded and the
`results["sunrise"]` / `results["sunset"]` lookups each produced a
string or null (null when the body was malformed or empty). -/
inductive SunResponse where
  | connectFail : SunResponse
  | connected : Option String → Option String → SunResponse
deriving DecidableEq

/-- Environment of one control step: the outcomes the remote services
would produce if queried.  getSunRSTime makes two independent
convertTimeZone calls, each performing its own dst query, so the
environment carries one dst outcome per call. -/
structure Env where
  dstRise : DstResponse
  dstSet : DstResponse
  sun : SunResponse
deriving DecidableEq

/-- Global mutable state of the sketch: myTime, the static sunRSTime
array, overrideStateVal, lightStateVal, the relay pin level, and the
isSetup flag.  fetchCount instruments how many requests have been
issued to the sunrise-sunset service. -/
structure SysState where
  myTime : localTime
  sunRSTime : SunRSTime
  overrideStateVal : Bool
  lightStateVal : Bool
  relayPin : Bool
  isSetup : Bool
  fetchCount : Nat
deriving DecidableEq

/-- Arduino `String::substring(left, right)`: the bounds are swapped if
left > right, an out-of-range left yields "", and right is clamped to
the length; the slice is the characters in [left, right). -/
def arduinoSubstring (s : String) (left right : Nat) : String :=
  let l := min left right
  let r := max left right
  if s.length ≤ l then ""
  else ((s.toList.drop l).take (min r s.length - l)).asString

/-- Digit-prefix accumulator of C `atol`: consume leading decimal digits,
stop at the first non-digit. -/
def atolDigits : List Char → Nat → Nat
  | [], acc => acc
  | c :: cs, acc =>
      if c.isDigit then atolDigits cs (acc * 10 + (c.toNat - 48)) else acc

/-- Arduino `String::toInt` (C `atol`): skip leading whitespace, an
optional sign, then the longest prefix of digits; "" and non-numeric
strings give 0. -/
def arduinoToInt (s : String) : Int :=
  let cs := s.toList.dropWhile fun c => c = ' ' ∨ c = '\t' ∨ c = '\n' ∨ c = '\r'
  match cs with
  | '-' :: rest => -(atolDigits rest 0 : Int)
  | '+' :: rest => (atolDigits rest 0 : Int)
  | rest => (atolDigits rest 0 : Int)

/-- The offset-resolution block of part_000 convertTimeZone
(lines 345-389): gmtOffset starts at 0; on connection success it becomes
7 if `doc["dst"]` equals "1", 8 if it equals "0", else stays 0; after the
connection block, a gmtOffset that is still 0 is defaulted to 7. -/
def gmtOffset (env : DstResponse) : Int :=
  let g : Int :=
    match env with
    | DstResponse.connectFail => 0
    | DstResponse.connected dst =>
        if dst.getD "" = "1" then 7
        else if dst.getD "" = "0" then 8
        else 0
  if g = 0 then 7 else g

/-- part_000 convertTimeZone (lines 345-397): subtract the resolved
gmtOffset from the UTC hour and add 24 if the result went negative. -/
def convertTimeZone (env : DstResponse) (militaryHour : Int) : Int :=
  let h := militaryHour - gmtOffset env
  if h < 0 then h + 24 else h

/-- convertTimeFormat (part_000 lines 408-426): 24-hour to 12-hour
numeral. -/
def convertTimeFormat (militaryHour : Int) : Int :=
  if militaryHour = 0 then militaryHour + 12
  else if militaryHour > 12 then militaryHour - 12
  else militaryHour

/-- getAMPM (part_000 lines 437-447). -/
def getAMPM (militaryHour : Int) : String :=
  if militaryHour > 11 then " PM" else " AM"

/-- The `timeShort` display-string assembly of getLocalTime
(part_000 lines 316-325): 12-hour numeral, ":", a leading "0" when the
minute is below 10, the minute, and the " AM"/" PM" tag. -/
def timeShort (militaryHour minute : Int) : String :=
  (((("" ++ toString (convertTimeFormat militaryHour)) ++ ":")
      ++ (if minute < 10 then "0" else ""))
      ++ toString minute) ++ getAMPM militaryHour

/-- Arduino `word(h, l)`: build a 16-bit word from two bytes,
`(h << 8) | l`. -/
def word (h l : Nat) : Nat := (h <<< 8) ||| l

/-- The NTP timestamp extraction of getLocalTime (part_000 lines
296-301): bytes 40-43 as two big-endian 16-bit words combined by
`highWord << 16 | lowWord` into seconds since 1900. -/
def secsSince1900 (buf : Nat → Nat) : Nat :=
  (word (buf 40) (buf 41)) <<< 16 ||| word (buf 42) (buf 43)

/-- The epoch computation of getLocalTime (part_000 line 304):
`secsSince1900 - 2208988800` in 32-bit unsigned-long arithmetic. -/
def epoch (buf : Nat → Nat) : Nat :=
  (secsSince1900 buf + (2 ^ 32 - 2208988800)) % 2 ^ 32

/-- A 48-byte reply buffer holding the given four timestamp bytes at
offsets 40-43 and zero elsewhere. -/
def mkBuf (b40 b41 b42 b43 : Nat) : Nat → Nat := fun i =>
  if i = 40 then b40
  else if i = 41 then b41
  else if i = 42 then b42
  else if i = 43 then b43
  else 0

/-- getSunRSTime (part_000 lines 488-541): write the defaults
(5, 45, 19, 0) into the array; then, only if the connection succeeded,
overwrite all four entries with values sliced out of the sunrise and
sunset field strings (a null field string is "" per the Arduino String
constructor), converting each hour through convertTimeZone with its own
dst query and keeping the minutes unconverted. -/
def getSunRSTime (dstRise dstSet : DstResponse) (resp : SunResponse) :
    SunRSTime :=
  match resp with
  | SunResponse.connectFail => ⟨5, 45, 19, 0⟩
  | SunResponse.connected sunriseF sunsetF =>
      let sunrise := sunriseF.getD ""
      let sunset := sunsetF.getD ""
      ⟨convertTimeZone dstRise (arduinoToInt (arduinoSubstring sunrise 11 13)),
       arduinoToInt (arduinoSubstring sunrise 14 16),
       convertTimeZone dstSet (arduinoToInt (arduinoSubstring sunset 11 13)),
       arduinoToInt (arduinoSubstring sunset 14 16)⟩

/-- The relay-on condition of checkSchedule (part_000 line 468):
`((hour == RISE_HOUR && minute <= RISE_MIN) || hour < RISE_HOUR) ||
((hour == SET_HOUR && minute >= SET_MIN) || hour > SET_HOUR)`. -/
def scheduleOn (h m : Int) (w : SunRSTime) : Bool :=
  ((h == w.RISE_HOUR && decide (m ≤ w.RISE_MIN)) || decide (h < w.RISE_HOUR))
    || ((h == w.SET_HOUR && decide (m ≥ w.SET_MIN)) || decide (h > w.SET_HOUR))

/-- enableRelay (part_000 lines 551-555): drive the relay pin high and
record lightStateVal true. -/
def enableRelay (st : SysState) : SysState :=
  { st with relayPin := true, lightStateVal := true }

/-- disableRelay (part_000 lines 565-569). -/
def disableRelay (st : SysState) : SysState :=
  { st with relayPin := false, lightStateVal := false }

/-- checkSchedule (part_000 lines 460-477): refetch the sun window when
the time is 12:01 AM or during setup; then, only when the override is
not engaged, enable or disable the relay by the scheduleOn condition. -/
def checkSchedule (env : Env) (st : SysState) : SysState :=
  let st1 :=
    if (st.myTime.militaryHour == 0 && st.myTime.minute == 1) || st.isSetup then
      { st with
          sunRSTime := getSunRSTime env.dstRise env.dstSet env.sun,
          fetchCount := st.fetchCount + 1 }
    else st
  if st1.overrideStateVal = false then
    if scheduleOn st1.myTime.militaryHour st1.myTime.minute st1.sunRSTime then
      enableRelay st1
    else
      disableRelay st1
  else st1

/-- overrideRelay (part_000 lines 579-594): if the override was engaged,
drive the pin low, clear the override flag and re-run checkSchedule;
otherwise drive the pin high, set the override flag and record
lightStateVal true. -/
def overrideRelay (env : Env) (st : SysState) : SysState :=
  if st.overrideStateVal then
    checkSchedule env { st with relayPin := false, overrideStateVal := false }
  else
    { st with relayPin := true, overrideStateVal := true, lightStateVal := true }

namespace Ino

/-- convertTimeZone of src/LightTimer.ino (lines 294-302): always
subtract a fixed 7 and add 24 if the result went negative; no dst
query is made. -/
def convertTimeZone (militaryHour : Int) : Int :=
  let h := militaryHour - 7
  if h < 0 then h + 24 else h

end Ino

/-- Environment in which every remote query fails to connect. -/
def envFail : Env := ⟨DstResponse.connectFail, DstResponse.connectFail,
  SunResponse.connectFail⟩

/-- The built-in default sun window: rise 05:45, set 19:00. -/
def defaultWindow : SunRSTime := ⟨5, 45, 19, 0⟩

/-- A state at the given time with the default window, override not
engaged, light off and setup finished. -/
def mkState (h m : Int) : SysState :=
  ⟨⟨"", h, m⟩, defaultWindow, false, false, false, false, 0⟩

/-- The state after a failed time synchronization: myTime holds the
sentinel (-1, -1, "Time Error") set at part_000 lines 283-285. -/
def sentinelState : SysState :=
  ⟨⟨"Time Error", -1, -1⟩, defaultWindow, false, false, false, false, 0⟩

lemma shiftLeft_lor_eq {b : Nat} (a k : Nat) (hb : b < 2 ^ k) :
    a <<< k ||| b = a * 2 ^ k + b := by
  rw [Nat.shiftLeft_eq, Nat.mul_comm a (2 ^ k)]
  exact (Nat.mul_add_lt_is_or hb a).symm

lemma gmtOffset_eq_7_or_8 (env : DstResponse) :
    gmtOffset env = 7 ∨ gmtOffset env = 8 := by
  cases env with
  | connectFail => left; rfl
  | connected dst =>
      by_cases h1 : dst.getD "" = "1"
      · left; simp [gmtOffset, h1]
      · by_cases h0 : dst.getD "" = "0"
        · right; simp [gmtOffset, h1, h0]
        · left; simp [gmtOffset, h1, h0]

lemma scheduleOn_iff (h m : Int) (w : SunRSTime) :
    scheduleOn h m w = true ↔
      ((h = w.RISE_HOUR ∧ m ≤ w.RISE_MIN) ∨ h < w.RISE_HOUR ∨
        (h = w.SET_HOUR ∧ m ≥ w.SET_MIN) ∨ h > w.SET_HOUR) := by
  simp [scheduleOn, Bool.or_eq_true, Bool.and_eq_true, beq_iff_eq,
    decide_eq_true_eq, or_assoc]

lemma checkSchedule_myTime (env : Env) (st : SysState) :
    (checkSchedule env st).myTime = st.myTime := by
  simp only [checkSchedule]
  split <;> split <;> first
    | rfl
    | (split <;> simp [enableRelay, disableRelay])

lemma checkSchedule_sunRSTime (env : Env) (st : SysState) :
    (checkSchedule env st).sunRSTime =
      (if (st.myTime.militaryHour == 0 && st.myTime.minute == 1) || st.isSetup
       then getSunRSTime env.dstRise env.dstSet env.sun
       else st.sunRSTime) := by
  simp only [checkSchedule]
  split <;> split <;> first
    | rfl
    | (split <;> simp [enableRelay, disableRelay])

lemma checkSchedule_fetchCount (env : Env) (st : SysState) :
    (checkSchedule env st).fetchCount =
      (if (st.myTime.militaryHour == 0 && st.myTime.minute == 1) || st.isSetup
       then st.fetchCount + 1
       else st.fetchCount) := by
  simp only [checkSchedule]
  split <;> split <;> first
    | rfl
    | (split <;> simp [enableRelay, disableRelay])

lemma checkSchedule_light (env : Env) (st : SysState)
    (hov : st.overrideStateVal = false) :
    (checkSchedule env st).lightStateVal =
      scheduleOn st.myTime.militaryHour st.myTime.minute
        (checkSchedule env st).sunRSTime := by
  rw [checkSchedule_sunRSTime]
  simp only [checkSchedule]
  split <;> simp [hov, enableRelay, disableRelay] <;> split <;> simp_all

lemma checkSchedule_relayPin (env : Env) (st : SysState)
    (hov : st.overrideStateVal = false) :
    (checkSchedule env st).relayPin = (checkSchedule env st).lightStateVal := by
  simp only [checkSchedule]
  split <;> simp [hov, enableRelay, disableRelay] <;> split <;> simp_all

lemma checkSchedule_frame (env : Env) (st : SysState)
    (hov : st.overrideStateVal = true) :
    (checkSchedule env st).lightStateVal = st.lightStateVal ∧
      (checkSchedule env st).relayPin = st.relayPin := by
  simp only [checkSchedule]
  split <;> simp [hov]

/-- C1: with the override not engaged, checkSchedule commands the relay
on exactly when (hour = RISE_HOUR and minute ≤ RISE_MIN) or
hour < RISE_HOUR or (hour = SET_HOUR and minute ≥ SET_MIN) or
hour > SET_HOUR, judged against the window it holds after any refresh;
with the default window rise 05:45 / set 19:00 the relay is on at
(5,45), (4,59), (19,0), (20,0) and off at (5,46), (18,59). -/
theorem c1_schedule_condition (env : Env) (st : SysState)
    (hov : st.overrideStateVal = false) :
    ((checkSchedule env st).lightStateVal = true ↔
      ((st.myTime.militaryHour = (checkSchedule env st).sunRSTime.RISE_HOUR ∧
          st.myTime.minute ≤ (checkSchedule env st).sunRSTime.RISE_MIN) ∨
        st.myTime.militaryHour < (checkSchedule env st).sunRSTime.RISE_HOUR ∨
        (st.myTime.militaryHour = (checkSchedule env st).sunRSTime.SET_HOUR ∧
          st.myTime.minute ≥ (checkSchedule env st).sunRSTime.SET_MIN) ∨
        st.myTime.militaryHour > (checkSchedule env st).sunRSTime.SET_HOUR)) ∧
    (checkSchedule envFail (mkState 5 45)).lightStateVal = true ∧
    (checkSchedule envFail (mkState 4 59)).lightStateVal = true ∧
    (checkSchedule envFail (mkState 19 0)).lightStateVal = true ∧
    (checkSchedule envFail (mkState 20 0)).lightStateVal = true ∧
    (checkSchedule envFail (mkState 5 46)).lightStateVal = false ∧
    (checkSchedule envFail (mkState 18 59)).lightStateVal = false := by
  refine ⟨?_, by decide, by decide, by decide, by decide, by decide, by decide⟩
  rw [checkSchedule_light env st hov, scheduleOn_iff]

/-- Witness for C1 at the concrete state (20, 0) with the default
window: the relay is on because 20 > SET_HOUR = 19. -/
theorem c1_witness :
    (checkSchedule envFail (mkState 20 0)).lightStateVal = true :=
  (c1_schedule_condition envFail (mkState 20 0) rfl).2.2.2.2.1

/-- C2 counterexample: with a successful connection but a malformed or
empty body (both field lookups null), getSunRSTime does not keep the
built-in default window. -/
theorem c2_counterexample :
    getSunRSTime DstResponse.connectFail DstResponse.connectFail
      (SunResponse.connected none none) ≠ defaultWindow := by
  decide

/-- C2 (amended): a connection failure keeps the built-in default
window (5, 45, 19, 0) and never a previous value, but a parse failure
with a successful connection overwrites the defaults with values sliced
out of the empty field strings: both minutes become 0 and both hours
become convertTimeZone of 0, which is 17 under the default offset 7. -/
theorem c2_fetch_failure_window :
    (∀ d1 d2 : DstResponse,
      getSunRSTime d1 d2 SunResponse.connectFail = defaultWindow) ∧
    (∀ d1 d2 : DstResponse,
      getSunRSTime d1 d2 (SunResponse.connected none none) =
        ⟨convertTimeZone d1 0, 0, convertTimeZone d2 0, 0⟩) ∧
    getSunRSTime DstResponse.connectFail DstResponse.connectFail
      (SunResponse.connected none none) = ⟨17, 0, 17, 0⟩ :=
  ⟨fun _ _ => rfl, fun _ _ => rfl, by decide⟩

/-- C3 counterexample: on the sentinel time (-1, -1) with the override
not engaged, checkSchedule does derive a relay command from the
sentinel: it drives the relay on (the sentinel hour -1 passes the
hour < RISE_HOUR test), flipping lightStateVal from false to true. -/
theorem c3_counterexample :
    sentinelState.myTime.militaryHour = -1 ∧
    sentinelState.myTime.minute = -1 ∧
    sentinelState.overrideStateVal = false ∧
    sentinelState.lightStateVal = false ∧
    (checkSchedule envFail sentinelState).lightStateVal = true ∧
    (checkSchedule envFail sentinelState).relayPin = true := by
  decide

/-- C3 (amended): on the sentinel time (-1, -1) outside of setup, the
once-daily refresh trigger does not fire (no fetch is issued and the
cached window is unchanged); but the schedule evaluation does treat the
sentinel as a valid time: whenever the override is not engaged and the
cached RISE_HOUR exceeds -1, it commands the relay on. -/
theorem c3_sentinel_behavior (env : Env) (st : SysState)
    (hh : st.myTime.militaryHour = -1) (hm : st.myTime.minute = -1)
    (hs : st.isSetup = false) :
    (checkSchedule env st).fetchCount = st.fetchCount ∧
    (checkSchedule env st).sunRSTime = st.sunRSTime ∧
    (st.overrideStateVal = false → -1 < st.sunRSTime.RISE_HOUR →
      (checkSchedule env st).lightStateVal = true) := by
  have htr : ((st.myTime.militaryHour == 0 && st.myTime.minute == 1)
      || st.isSetup) = false := by
    simp [hh, hm, hs]
  refine ⟨?_, ?_, ?_⟩
  · rw [checkSchedule_fetchCount, htr]; rfl
  · rw [checkSchedule_sunRSTime, htr]; rfl
  · intro hov hrise
    rw [checkSchedule_light env st hov, checkSchedule_sunRSTime, htr]
    simp only [scheduleOn_iff, Bool.false_eq_true, if_false]
    omega

/-- Witness for C3 (amended) at the concrete sentinel state with the
default window. -/
theorem c3_witness :
    (checkSchedule envFail sentinelState).fetchCount =
      sentinelState.fetchCount ∧
    (checkSchedule envFail sentinelState).lightStateVal = true :=
  ⟨(c3_sentinel_behavior envFail sentinelState rfl rfl rfl).1,
   (c3_sentinel_behavior envFail sentinelState rfl rfl rfl).2.2 rfl
     (by decide)⟩

/-- C4: the timezone conversion resolves the offset from the dst field
(7 for "1", 8 for "0", 7 on connection failure and for any unrecognized
or absent value), returns utcHour minus the offset plus 24 when that is
negative, and its result always lies in 0-23 for a UTC hour in 0-23. -/
theorem c4_convertTimeZone (h : Int) (h0 : 0 ≤ h) (h23 : h ≤ 23) :
    gmtOffset (DstResponse.connected (some "1")) = 7 ∧
    gmtOffset (DstResponse.connected (some "0")) = 8 ∧
    gmtOffset DstResponse.connectFail = 7 ∧
    gmtOffset (DstResponse.connected none) = 7 ∧
    (∀ s : String, s ≠ "1" → s ≠ "0" →
      gmtOffset (DstResponse.connected (some s)) = 7) ∧
    (∀ env : DstResponse,
      convertTimeZone env h =
        (if h - gmtOffset env < 0 then h - gmtOffset env + 24
         else h - gmtOffset env) ∧
      0 ≤ convertTimeZone env h ∧ convertTimeZone env h ≤ 23) := by
  refine ⟨by decide, by decide, by decide, by decide, ?_, ?_⟩
  · intro s hs1 hs0
    simp [gmtOffset, hs1, hs0]
  · intro env
    refine ⟨rfl, ?_, ?_⟩ <;>
      rcases gmtOffset_eq_7_or_8 env with hg | hg <;>
        simp only [convertTimeZone, hg] <;> split <;> omega

/-- Witness for C4 at UTC hour 3 with a failed dst query: the offset
defaults to 7 and the hour wraps to 20. -/
theorem c4_witness :
    convertTimeZone DstResponse.connectFail 3 =
      (if (3 : Int) - gmtOffset DstResponse.connectFail < 0
       then 3 - gmtOffset DstResponse.connectFail + 24
       else 3 - gmtOffset DstResponse.connectFail) :=
  ((c4_convertTimeZone 3 (by decide) (by decide)).2.2.2.2.2
    DstResponse.connectFail).1

/-- C5: from a state with the override not engaged, two consecutive
edges on the override input return the override flag to not engaged,
leave the current time unchanged, and leave the relay state equal to
the value the schedule condition computes for the current time and the
cached sun window. -/
theorem c5_double_toggle (env : Env) (st : SysState)
    (hov : st.overrideStateVal = false) :
    (overrideRelay env (overrideRelay env st)).overrideStateVal = false ∧
    (overrideRelay env (overrideRelay env st)).myTime = st.myTime ∧
    (overrideRelay env (overrideRelay env st)).lightStateVal =
      scheduleOn st.myTime.militaryHour st.myTime.minute
        (overrideRelay env (overrideRelay env st)).sunRSTime ∧
    (overrideRelay env (overrideRelay env st)).relayPin =
      (overrideRelay env (overrideRelay env st)).lightStateVal := by
  have h1 : overrideRelay env st =
      { st with relayPin := true, overrideStateVal := true,
                lightStateVal := true } := by
    unfold overrideRelay
    rw [if_neg (by rw [hov]; exact Bool.false_ne_true)]
  have h2 : overrideRelay env (overrideRelay env st) =
      checkSchedule env
        { st with relayPin := false, overrideStateVal := false,
                  lightStateVal := true } := by
    rw [h1]; rfl
  rw [h2]
  refine ⟨?_, checkSchedule_myTime _ _, ?_, checkSchedule_relayPin _ _ rfl⟩
  · simp only [checkSchedule]
    split <;> simp [enableRelay, disableRelay] <;> split <;> simp_all
  · exact checkSchedule_light _ _ rfl

/-- Witness for C5 at state (18, 59) with the default window: after two
edges the override is clear and the light is off, matching the schedule
condition. -/
theorem c5_witness :
    (overrideRelay envFail (overrideRelay envFail (mkState 18 59))).overrideStateVal
      = false ∧
    (overrideRelay envFail (overrideRelay envFail (mkState 18 59))).lightStateVal
      = scheduleOn 18 59
          (overrideRelay envFail (overrideRelay envFail (mkState 18 59))).sunRSTime :=
  ⟨(c5_double_toggle envFail (mkState 18 59) rfl).1,
   (c5_double_toggle envFail (mkState 18 59) rfl).2.2.1⟩

/-- C6: checkSchedule issues a sun-window fetch exactly when the current
time is 00:01 or the setup flag is set (first evaluation since process
start), and issues none for any other time; in particular no fetch at
00:00 or 00:02 and one fetch at 00:01. -/
theorem c6_refresh_trigger (env : Env) (st : SysState) :
    ((checkSchedule env st).fetchCount = st.fetchCount + 1 ↔
      ((st.myTime.militaryHour = 0 ∧ st.myTime.minute = 1) ∨
        st.isSetup = true)) ∧
    ((checkSchedule env st).fetchCount = st.fetchCount ↔
      ¬((st.myTime.militaryHour = 0 ∧ st.myTime.minute = 1) ∨
        st.isSetup = true)) ∧
    (checkSchedule envFail (mkState 0 0)).fetchCount = 0 ∧
    (checkSchedule envFail (mkState 0 2)).fetchCount = 0 ∧
    (checkSchedule envFail (mkState 0 1)).fetchCount = 1 := by
  refine ⟨?_, ?_, by decide, by decide, by decide⟩ <;>
    rw [checkSchedule_fetchCount] <;>
    by_cases hc : ((st.myTime.militaryHour == 0 && st.myTime.minute == 1)
        || st.isSetup) = true <;>
      simp_all

/-- C7: the 12-hour formatter displays hour 0 as 12, hours 1-12
unchanged and hours 13-23 as hour minus 12; the tag is " PM" exactly
when the hour is at least 12; a minute below 10 is zero-padded; and
(23, 59) formats as "11:59 PM". -/
theorem c7_clock_format (h m : Int) (h0 : 0 ≤ h) (h23 : h ≤ 23)
    (m0 : 0 ≤ m) (m59 : m ≤ 59) :
    (h = 0 → convertTimeFormat h = 12) ∧
    (1 ≤ h → h ≤ 12 → convertTimeFormat h = h) ∧
    (13 ≤ h → convertTimeFormat h = h - 12) ∧
    (getAMPM h = " PM" ↔ 12 ≤ h) ∧
    (h < 12 → getAMPM h = " AM") ∧
    (m < 10 →
      timeShort h m =
        (((("" ++ toString (convertTimeFormat h)) ++ ":") ++ "0")
            ++ toString m) ++ getAMPM h) ∧
    timeShort 23 59 = "11:59 PM" := by
  refine ⟨?_, ?_, ?_, ?_, ?_, ?_, by decide⟩
  · intro hz; rw [hz]; decide
  · intro ha hb
    unfold convertTimeFormat
    rw [if_neg (by omega), if_neg (by omega)]
  · intro ha
    unfold convertTimeFormat
    rw [if_neg (by omega), if_pos (by omega)]
  · unfold getAMPM
    split
    · simp only [true_iff]; omega
    · refine iff_of_false (by decide) (by omega)
  · intro ha
    unfold getAMPM
    rw [if_neg (by omega)]
  · intro hm
    unfold timeShort
    rw [if_pos hm]

/-- Witness for C7 at (0, 5): hour 0 displays as 12, the tag is AM and
the minute is zero-padded, giving "12:05 AM". -/
theorem c7_witness :
    timeShort 0 5 =
      (((("" ++ toString (convertTimeFormat 0)) ++ ":") ++ "0")
          ++ toString (5 : Int)) ++ getAMPM 0 :=
  (c7_clock_format 0 5 (by decide) (by decide) (by decide)
    (by decide)).2.2.2.2.2.1 (by decide)

/-- C8: on a 48-byte reply whose bytes 40-43 are the given byte values,
the decoder combines them as two big-endian 16-bit words into a 32-bit
seconds-since-1900 count and, whenever that count is at least
2208988800, returns exactly the count minus 2208988800. -/
theorem c8_epoch_decode (b40 b41 b42 b43 : Nat)
    (h40 : b40 < 256) (h41 : b41 < 256) (h42 : b42 < 256) (h43 : b43 < 256)
    (hbig : 2208988800 ≤ b40 * 2 ^ 24 + b41 * 2 ^ 16 + b42 * 2 ^ 8 + b43) :
    secsSince1900 (mkBuf b40 b41 b42 b43) =
      b40 * 2 ^ 24 + b41 * 2 ^ 16 + b42 * 2 ^ 8 + b43 ∧
    epoch (mkBuf b40 b41 b42 b43) =
      (b40 * 2 ^ 24 + b41 * 2 ^ 16 + b42 * 2 ^ 8 + b43) - 2208988800 := by
  have hw43 : word b42 b43 = b42 * 2 ^ 8 + b43 :=
    shiftLeft_lor_eq b42 8 h43
  have hw41 : word b40 b41 = b40 * 2 ^ 8 + b41 :=
    shiftLeft_lor_eq b40 8 h41
  have hsecs : secsSince1900 (mkBuf b40 b41 b42 b43) =
      b40 * 2 ^ 24 + b41 * 2 ^ 16 + b42 * 2 ^ 8 + b43 := by
    show word b40 b41 <<< 16 ||| word b42 b43 = _
    rw [shiftLeft_lor_eq (word b40 b41) 16 (by omega), hw41, hw43]
    ring
  refine ⟨hsecs, ?_⟩
  unfold epoch
  rw [hsecs]
  omega

/-- Witness for C8: the buffer whose timestamp bytes encode
seconds-since-1900 = 3900000000 decodes to epoch
3900000000 - 2208988800 = 1691011200. -/
theorem c8_witness : epoch (mkBuf 232 117 71 0) = 1691011200 := by
  rw [(c8_epoch_decode 232 117 71 0 (by decide) (by decide) (by decide)
    (by decide) (by decide)).2]
  decide

/-- C9: while the override is engaged, one run of checkSchedule leaves
lightStateVal and the relay pin untouched; while it is not engaged,
every run re-evaluates them from the schedule condition. -/
theorem c9_override_frame (env : Env) (st : SysState) :
    (st.overrideStateVal = true →
      (checkSchedule env st).lightStateVal = st.lightStateVal ∧
      (checkSchedule env st).relayPin = st.relayPin) ∧
    (st.overrideStateVal = false →
      (checkSchedule env st).lightStateVal =
        scheduleOn st.myTime.militaryHour st.myTime.minute
          (checkSchedule env st).sunRSTime ∧
      (checkSchedule env st).relayPin = (checkSchedule env st).lightStateVal) :=
  ⟨fun hov => checkSchedule_frame env st hov,
   fun hov => ⟨checkSchedule_light env st hov,
     checkSchedule_relayPin env st hov⟩⟩

/-- Witness for C9 at a state with the override engaged: the schedule
check leaves the light state untouched. -/
theorem c9_witness :
    (checkSchedule envFail
        ⟨⟨"", 20, 0⟩, defaultWindow, true, false, false, false, 0⟩).lightStateVal
      = false :=
  ((c9_override_frame envFail
      ⟨⟨"", 20, 0⟩, defaultWindow, true, false, false, false, 0⟩).1 rfl).1

/-- C10: the fixed-offset conversion of src/LightTimer.ino agrees with
the dst-querying conversion of part_000 whenever the latter resolves
its offset to 7, and the two differ when the dst field is "0" (offset
8): at UTC hour 0 they give 17 and 16. -/
theorem c10_ino_refinement (d : DstResponse) (h : Int)
    (hoff : gmtOffset d = 7) :
    Ino.convertTimeZone h = convertTimeZone d h ∧
    Ino.convertTimeZone 0 = 17 ∧
    convertTimeZone (DstResponse.connected (some "0")) 0 = 16 ∧
    Ino.convertTimeZone 0 ≠
      convertTimeZone (DstResponse.connected (some "0")) 0 ∧
    gmtOffset (DstResponse.connected (some "0")) = 8 := by
  refine ⟨?_, by decide, by decide, by decide, by decide⟩
  unfold Ino.convertTimeZone convertTimeZone
  rw [hoff]

/-- Witness for C10 with a failed dst query (offset resolves to 7) at
UTC hour 5. -/
theorem c10_witness :
    Ino.convertTimeZone 5 = convertTimeZone DstResponse.connectFail 5 :=
  (c10_ino_refinement DstResponse.connectFail 5 (by decide)).1

end LightTimer
